import Mathlib

/-!
Shallow embedding of `tools/engine_cli/src/Engine.js` (the `run` entry
point of the react-native-wix-engine CLI orchestrator) and proofs about
its control flow.

External collaborators (RNCLIConfigValidator, GenerateConfiguration,
PackagerWatcher, AsyncPackagerRunner, IosRunner, AndroidRunner, the kill
system call) are not part of the file under verification; their outcomes
are supplied by an environment record `Env`.  JavaScript promise timing
is modelled by a settle time (a `Nat`) attached to each of the two
concurrently launched platform branches; `Promise.all` is embedded as
`promiseAll2`, which fulfills at the later of two fulfillments and
rejects at the earliest rejection (ties broken by array order), exactly
the ECMAScript semantics.

`run` returns the ordered list of observable events (logging, external
calls, `process.exit`), the final outcome, the error caught by the
top-level catch (if any), the final value of the `packagerProcess`
variable, and the settle information of the concurrent fan-out.
-/

/-- A JavaScript error value, identified by its message. -/
structure JsError where
  msg : String
deriving Repr, DecidableEq

/-- The value assigned to `packagerProcess` by `AsyncPackagerRunner().run`:
`truthy` models JavaScript truthiness of the returned value, `hasKill`
models `typeof packagerProcess.kill === 'function'`. -/
structure ProcessHandle where
  truthy : Bool
  hasKill : Bool
deriving Repr, DecidableEq

/-- Parsed CLI arguments, mirroring `parseArgs()` in Engine.js. -/
structure Args where
  run_ios : Bool
  run_android : Bool
  disable_uninstall : Bool
  native_build_type : String
  custom_config_json : Option String
  ios_devices : Option String
  ios_udids : Option String
  no_packager : Bool
  reset_cache : Bool
  packager_port : String
  force_localhost : Bool
deriving Repr, DecidableEq

/-- Outcomes of the external collaborators for one run.  `none` means the
call returned normally, `some e` that it threw `e`; `Except` is used where
the call also returns a value.  `iosTime`/`androidTime` are the promise
settle times of the two platform branches. -/
structure Env where
  validatorError : Option JsError
  generatorError : Option JsError
  validateDownResult : Except JsError Bool
  spawnResult : Except JsError ProcessHandle
  iosResult : Option JsError
  iosTime : Nat
  androidResult : Option JsError
  androidTime : Nat
  killError : Option JsError
deriving Repr

/-- Observable events of a run, in program order. -/
inductive Event where
  | logInfo (msg : String)
  | logError (msg : String)
  | validatorRun
  | generatorRun (force_localhost : Bool)
  | newPackagerWatcher (port : String) (noPackager : Bool)
  | validateDown
  | startWatchingUntilUp
  | spawnPackager (resetCache : Bool) (port : String)
  | launchIos
  | launchAndroid
  | killPackager
  | processExit (code : Nat)
deriving Repr, DecidableEq

/-- How the promise returned by `run` ends: a normal return, a
`process.exit`, or a rejection propagated to the caller. -/
inductive Outcome where
  | normal
  | exited (code : Nat)
  | threw (e : JsError)
deriving Repr, DecidableEq

/-- How one promise settles: fulfilled or rejected, at a given time. -/
inductive SettledOutcome where
  | fulfilled (t : Nat)
  | rejected (e : JsError) (t : Nat)
deriving Repr, DecidableEq

/-- The settle time of a promise outcome. -/
def settleTime : SettledOutcome → Nat
  | SettledOutcome.fulfilled t => t
  | SettledOutcome.rejected _ t => t

/-- ECMAScript `Promise.all` on two promises: fulfilled when both are,
at the later time; rejected as soon as the first rejection settles (on a
tie, the first promise in array order wins). -/
def promiseAll2 : SettledOutcome → SettledOutcome → SettledOutcome
  | SettledOutcome.fulfilled t1, SettledOutcome.fulfilled t2 =>
      SettledOutcome.fulfilled (max t1 t2)
  | SettledOutcome.rejected e1 t1, SettledOutcome.fulfilled _ =>
      SettledOutcome.rejected e1 t1
  | SettledOutcome.fulfilled _, SettledOutcome.rejected e2 t2 =>
      SettledOutcome.rejected e2 t2
  | SettledOutcome.rejected e1 t1, SettledOutcome.rejected e2 t2 =>
      if t2 < t1 then SettledOutcome.rejected e2 t2 else SettledOutcome.rejected e1 t1

/-- Settle information of the concurrent fan-out step. -/
structure FanoutInfo where
  ios : SettledOutcome
  android : SettledOutcome
  join : SettledOutcome
deriving Repr, DecidableEq

/-- The result of one (simulated) invocation of `run`. -/
structure RunResult where
  trace : List Event
  outcome : Outcome
  caught : Option JsError
  packagerProcessFinal : Option ProcessHandle
  fanout : Option FanoutInfo
deriving Repr, DecidableEq

/-- The condition `packagerProcess && typeof packagerProcess.kill === 'function'`
guarding the kill in the catch block. -/
def killable : Option ProcessHandle → Bool
  | some h => h.truthy && h.hasKill
  | none => false

/-- The body of the top-level `catch (ex)` block of `run` (Engine.js
lines 130-145): log the error; if a killable packager process handle
exists, log and kill it, logging a kill failure; otherwise log that
there is nothing to stop; finally `process.exit(0)`. -/
def catchBlock (pp : Option ProcessHandle) (killError : Option JsError) (e : JsError) :
    List Event :=
  Event.logError ("An error occurred: " ++ e.msg) ::
    ((if killable pp then
        Event.logInfo "Stopping the Metro Bundler process..." ::
          Event.killPackager ::
            (match killError with
             | none => []
             | some ke => [Event.logError ("Failed to stop the Metro Bundler process: " ++ ke.msg)])
      else [Event.logInfo "No Metro Bundler process to stop."]) ++
      [Event.processExit 0])

/-- Result of `run` when an exception reaches the top-level catch with
the `packagerProcess` variable holding `pp`. -/
def failWith (tr : List Event) (pp : Option ProcessHandle) (killError : Option JsError)
    (e : JsError) : RunResult :=
  { trace := tr ++ catchBlock pp killError e
    outcome := Outcome.exited 0
    caught := some e
    packagerProcessFinal := pp
    fanout := none }

/-- One platform branch of the `Promise.all` fan-out (Engine.js lines
107-128): if the platform is enabled, await the runner; on error, log it
and re-throw the same error, so the branch promise rejects with it at the
runner settle time.  A disabled branch fulfills immediately. -/
def platformBranch (label : String) (enabled : Bool) (res : Option JsError) (t : Nat) :
    List Event × SettledOutcome :=
  if enabled then
    match res with
    | none => ([], SettledOutcome.fulfilled t)
    | some e =>
        ([Event.logError ("Error running " ++ label ++ " tasks: " ++ e.msg)],
         SettledOutcome.rejected e t)
  else ([], SettledOutcome.fulfilled 0)

/-- Settle outcome of the iOS branch of the fan-out. -/
def iosOutcome (a : Args) (env : Env) : SettledOutcome :=
  (platformBranch "iOS" a.run_ios env.iosResult env.iosTime).2

/-- Settle outcome of the Android branch of the fan-out. -/
def androidOutcome (a : Args) (env : Env) : SettledOutcome :=
  (platformBranch "Android" a.run_android env.androidResult env.androidTime).2

/-- Settle outcome of `Promise.all` over the two branches. -/
def joinOutcome (a : Args) (env : Env) : SettledOutcome :=
  promiseAll2 (iosOutcome a env) (androidOutcome a env)

/-- The part of the trace produced from the fan-out step onwards: the
log line, the launch of each enabled platform runner, the branch log
events, and — when the join rejects — the catch block. -/
def fanoutSuffix (a : Args) (env : Env) (pp : Option ProcessHandle) : List Event :=
  [Event.logInfo "Running platform-specific tasks..."] ++
    ((if a.run_ios then [Event.launchIos] else []) ++
      (if a.run_android then [Event.launchAndroid] else [])) ++
    (platformBranch "iOS" a.run_ios env.iosResult env.iosTime).1 ++
    (platformBranch "Android" a.run_android env.androidResult env.androidTime).1 ++
    (match joinOutcome a env with
     | SettledOutcome.fulfilled _ => []
     | SettledOutcome.rejected e _ => catchBlock pp env.killError e)

/-- The `await Promise.all([...])` step of `run` (Engine.js lines
105-129) together with what follows it: a fulfilled join returns
normally, a rejected join propagates its (first) rejection error to the
catch block. -/
def runFanout (a : Args) (env : Env) (tr : List Event) (pp : Option ProcessHandle) :
    RunResult :=
  match joinOutcome a env with
  | SettledOutcome.fulfilled _ =>
      { trace := tr ++ fanoutSuffix a env pp
        outcome := Outcome.normal
        caught := none
        packagerProcessFinal := pp
        fanout := some ⟨iosOutcome a env, androidOutcome a env, joinOutcome a env⟩ }
  | SettledOutcome.rejected e _ =>
      { trace := tr ++ fanoutSuffix a env pp
        outcome := Outcome.exited 0
        caught := some e
        packagerProcessFinal := pp
        fanout := some ⟨iosOutcome a env, androidOutcome a env, joinOutcome a env⟩ }

/-- The error message logged when the packager port is occupied
(Engine.js lines 91-94). -/
def portInUseMsg (port : String) : String :=
  "A packager is already running on port " ++ port ++
    ". Use the -P option to bypass starting a new packager or stop the existing one."

/-- Trace accumulated when the validator call is made (Engine.js 77-78). -/
def trValidator : List Event :=
  [Event.logInfo "Validating React Native CLI configuration...", Event.validatorRun]

/-- Trace accumulated when the generator call is made (Engine.js 80-86). -/
def trGenerator (a : Args) : List Event :=
  trValidator ++ [Event.logInfo "Generating project configuration...",
    Event.generatorRun a.force_localhost]

/-- Trace accumulated when `validateDown` is awaited (Engine.js 88-90). -/
def trValidateDown (a : Args) : List Event :=
  trGenerator a ++ [Event.newPackagerWatcher a.packager_port a.no_packager,
    Event.validateDown]

/-- Trace accumulated when `startWatchingUntilUp` is called (Engine.js 98). -/
def trWatch (a : Args) : List Event :=
  trValidateDown a ++ [Event.startWatchingUntilUp]

/-- Trace accumulated when the packager spawn call is made (Engine.js 100-103). -/
def trSpawn (a : Args) : List Event :=
  trWatch a ++ [Event.logInfo "Starting Metro Bundler...",
    Event.spawnPackager a.reset_cache a.packager_port]

/-- Result of the `validateDown`-returned-false path (Engine.js 90-96):
log the port-in-use message and `process.exit(1)`. -/
def portInUseResult (a : Args) : RunResult :=
  { trace := trValidateDown a ++ [Event.logError (portInUseMsg a.packager_port),
      Event.processExit 1]
    outcome := Outcome.exited 1
    caught := none
    packagerProcessFinal := none
    fanout := none }

/-- Shallow embedding of `async function run(args)` (Engine.js lines
72-146).  The sequential steps are: validator, generator, watcher
construction, `validateDown` gate (exit 1 when it returns false),
`startWatchingUntilUp`, conditional packager spawn, then the concurrent
fan-out.  Any thrown error lands in `catchBlock`. -/
def run (a : Args) (env : Env) : RunResult :=
  match env.validatorError with
  | some e => failWith trValidator none env.killError e
  | none =>
    match env.generatorError with
    | some e => failWith (trGenerator a) none env.killError e
    | none =>
      match env.validateDownResult with
      | Except.error e => failWith (trValidateDown a) none env.killError e
      | Except.ok down =>
        if down then
          if a.no_packager then
            runFanout a env (trWatch a) none
          else
            match env.spawnResult with
            | Except.error e => failWith (trSpawn a) none env.killError e
            | Except.ok h => runFanout a env (trSpawn a) (some h)
        else
          portInUseResult a

/-- The exit codes passed to `process.exit` during a run, in order. -/
def exitEvents (tr : List Event) : List Nat :=
  tr.filterMap fun ev => match ev with
    | Event.processExit c => some c
    | _ => none

/-- Recognizes the `packagerProcess.kill()` event. -/
def isKillEvent : Event → Bool
  | Event.killPackager => true
  | _ => false

/-- How many times the packager process was killed. -/
def killCount (tr : List Event) : Nat :=
  (tr.filter isKillEvent).length

/-- The `(port, no_packager)` arguments of each `new PackagerWatcher(...)`
construction, in order. -/
def watcherCtorEvents (tr : List Event) : List (String × Bool) :=
  tr.filterMap fun ev => match ev with
    | Event.newPackagerWatcher p np => some (p, np)
    | _ => none

/-- Recognizes the `packagerWatcher.startWatchingUntilUp()` event. -/
def isWatchStartEvent : Event → Bool
  | Event.startWatchingUntilUp => true
  | _ => false

/-- How many times `startWatchingUntilUp` was invoked. -/
def watchStartCount (tr : List Event) : Nat :=
  (tr.filter isWatchStartEvent).length

/-- The `(reset_cache, port)` arguments of each `AsyncPackagerRunner().run`
call, in order. -/
def spawnEvents (tr : List Event) : List (Bool × String) :=
  tr.filterMap fun ev => match ev with
    | Event.spawnPackager rc p => some (rc, p)
    | _ => none

/-- Recognizes the start of a platform runner. -/
def isLaunchEvent : Event → Bool
  | Event.launchIos => true
  | Event.launchAndroid => true
  | _ => false

/-- The platform-runner launches of a run, in order. -/
def launchEvents (tr : List Event) : List Event :=
  tr.filter isLaunchEvent

/-- Position of an event in the sequential step order of `run`, for
events that belong to that order (both launches share level 5, since the
branches are concurrent). -/
def milestone : Event → Option Nat
  | Event.validatorRun => some 0
  | Event.generatorRun _ => some 1
  | Event.validateDown => some 2
  | Event.startWatchingUntilUp => some 3
  | Event.spawnPackager _ _ => some 4
  | Event.launchIos => some 5
  | Event.launchAndroid => some 5
  | _ => none

/-- The sequential milestones reached in a trace, in trace order. -/
def milestonesOf (tr : List Event) : List Nat :=
  tr.filterMap milestone

/-- The sequential milestones a run reaches, in trace order. -/
def milestones (r : RunResult) : List Nat :=
  milestonesOf r.trace

/-! ### Shape lemmas -/

theorem run_validator_error (a : Args) (env : Env) (e : JsError)
    (h : env.validatorError = some e) :
    run a env = failWith trValidator none env.killError e := by
  simp [run, h]

theorem run_generator_error (a : Args) (env : Env) (e : JsError)
    (hv : env.validatorError = none) (hg : env.generatorError = some e) :
    run a env = failWith (trGenerator a) none env.killError e := by
  simp [run, hv, hg]

theorem run_validateDown_error (a : Args) (env : Env) (e : JsError)
    (hv : env.validatorError = none) (hg : env.generatorError = none)
    (hd : env.validateDownResult = Except.error e) :
    run a env = failWith (trValidateDown a) none env.killError e := by
  simp [run, hv, hg, hd]

theorem run_validateDown_false (a : Args) (env : Env)
    (hv : env.validatorError = none) (hg : env.generatorError = none)
    (hd : env.validateDownResult = Except.ok false) :
    run a env = portInUseResult a := by
  simp [run, hv, hg, hd]

theorem run_gate_noPackager (a : Args) (env : Env)
    (hv : env.validatorError = none) (hg : env.generatorError = none)
    (hd : env.validateDownResult = Except.ok true) (hnp : a.no_packager = true) :
    run a env = runFanout a env (trWatch a) none := by
  simp [run, hv, hg, hd, hnp]

theorem run_spawn_error (a : Args) (env : Env) (e : JsError)
    (hv : env.validatorError = none) (hg : env.generatorError = none)
    (hd : env.validateDownResult = Except.ok true) (hnp : a.no_packager = false)
    (hs : env.spawnResult = Except.error e) :
    run a env = failWith (trSpawn a) none env.killError e := by
  simp [run, hv, hg, hd, hnp, hs]

theorem run_spawn_ok (a : Args) (env : Env) (h : ProcessHandle)
    (hv : env.validatorError = none) (hg : env.generatorError = none)
    (hd : env.validateDownResult = Except.ok true) (hnp : a.no_packager = false)
    (hs : env.spawnResult = Except.ok h) :
    run a env = runFanout a env (trSpawn a) (some h) := by
  simp [run, hv, hg, hd, hnp, hs]

theorem runFanout_trace (a : Args) (env : Env) (tr : List Event) (pp : Option ProcessHandle) :
    (runFanout a env tr pp).trace = tr ++ fanoutSuffix a env pp := by
  cases hj : joinOutcome a env <;> simp [runFanout, hj]

theorem runFanout_fanout (a : Args) (env : Env) (tr : List Event) (pp : Option ProcessHandle) :
    (runFanout a env tr pp).fanout =
      some ⟨iosOutcome a env, androidOutcome a env, joinOutcome a env⟩ := by
  cases hj : joinOutcome a env <;> simp [runFanout, hj]

theorem runFanout_packagerProcessFinal (a : Args) (env : Env) (tr : List Event)
    (pp : Option ProcessHandle) :
    (runFanout a env tr pp).packagerProcessFinal = pp := by
  cases hj : joinOutcome a env <;> simp [runFanout, hj]

theorem runFanout_fulfilled (a : Args) (env : Env) (tr : List Event)
    (pp : Option ProcessHandle) (t : Nat) (hj : joinOutcome a env = SettledOutcome.fulfilled t) :
    (runFanout a env tr pp).outcome = Outcome.normal ∧
      (runFanout a env tr pp).caught = none := by
  simp [runFanout, hj]

theorem runFanout_rejected (a : Args) (env : Env) (tr : List Event)
    (pp : Option ProcessHandle) (e : JsError) (t : Nat)
    (hj : joinOutcome a env = SettledOutcome.rejected e t) :
    (runFanout a env tr pp).outcome = Outcome.exited 0 ∧
      (runFanout a env tr pp).caught = some e := by
  simp [runFanout, hj]

/-! ### Projection lemmas -/

theorem exitEvents_append (l1 l2 : List Event) :
    exitEvents (l1 ++ l2) = exitEvents l1 ++ exitEvents l2 := by
  simp [exitEvents]

theorem killCount_append (l1 l2 : List Event) :
    killCount (l1 ++ l2) = killCount l1 + killCount l2 := by
  simp [killCount]

theorem watchStartCount_append (l1 l2 : List Event) :
    watchStartCount (l1 ++ l2) = watchStartCount l1 + watchStartCount l2 := by
  simp [watchStartCount]

theorem watcherCtorEvents_append (l1 l2 : List Event) :
    watcherCtorEvents (l1 ++ l2) = watcherCtorEvents l1 ++ watcherCtorEvents l2 := by
  simp [watcherCtorEvents]

theorem spawnEvents_append (l1 l2 : List Event) :
    spawnEvents (l1 ++ l2) = spawnEvents l1 ++ spawnEvents l2 := by
  simp [spawnEvents]

theorem launchEvents_append (l1 l2 : List Event) :
    launchEvents (l1 ++ l2) = launchEvents l1 ++ launchEvents l2 := by
  simp [launchEvents]

theorem milestonesOf_append (l1 l2 : List Event) :
    milestonesOf (l1 ++ l2) = milestonesOf l1 ++ milestonesOf l2 := by
  simp [milestonesOf]

theorem exitEvents_catchBlock (pp : Option ProcessHandle) (ke : Option JsError) (e : JsError) :
    exitEvents (catchBlock pp ke e) = [0] := by
  cases hk : killable pp <;> cases ke <;> simp [catchBlock, exitEvents, hk]

theorem killCount_catchBlock (pp : Option ProcessHandle) (ke : Option JsError) (e : JsError) :
    killCount (catchBlock pp ke e) = if killable pp then 1 else 0 := by
  cases hk : killable pp <;> cases ke <;> simp [catchBlock, killCount, isKillEvent, hk]

theorem killPackager_mem_catchBlock (pp : Option ProcessHandle) (ke : Option JsError)
    (e : JsError) : Event.killPackager ∈ catchBlock pp ke e ↔ killable pp = true := by
  cases hk : killable pp <;> cases ke <;> simp [catchBlock, hk]

theorem spawnEvents_catchBlock (pp : Option ProcessHandle) (ke : Option JsError) (e : JsError) :
    spawnEvents (catchBlock pp ke e) = [] := by
  cases hk : killable pp <;> cases ke <;> simp [catchBlock, spawnEvents, hk]

theorem watcherCtorEvents_catchBlock (pp : Option ProcessHandle) (ke : Option JsError)
    (e : JsError) : watcherCtorEvents (catchBlock pp ke e) = [] := by
  cases hk : killable pp <;> cases ke <;> simp [catchBlock, watcherCtorEvents, hk]

theorem watchStartCount_catchBlock (pp : Option ProcessHandle) (ke : Option JsError)
    (e : JsError) : watchStartCount (catchBlock pp ke e) = 0 := by
  cases hk : killable pp <;> cases ke <;>
    simp [catchBlock, watchStartCount, isWatchStartEvent, hk]

theorem launchEvents_catchBlock (pp : Option ProcessHandle) (ke : Option JsError)
    (e : JsError) : launchEvents (catchBlock pp ke e) = [] := by
  cases hk : killable pp <;> cases ke <;> simp [catchBlock, launchEvents, isLaunchEvent, hk]

theorem milestonesOf_catchBlock (pp : Option ProcessHandle) (ke : Option JsError)
    (e : JsError) : milestonesOf (catchBlock pp ke e) = [] := by
  cases hk : killable pp <;> cases ke <;> simp [catchBlock, milestonesOf, milestone, hk]

theorem exitEvents_trValidator : exitEvents trValidator = [] := rfl

theorem exitEvents_trGenerator (a : Args) : exitEvents (trGenerator a) = [] := rfl

theorem exitEvents_trValidateDown (a : Args) : exitEvents (trValidateDown a) = [] := rfl

theorem exitEvents_trWatch (a : Args) : exitEvents (trWatch a) = [] := rfl

theorem exitEvents_trSpawn (a : Args) : exitEvents (trSpawn a) = [] := rfl

theorem killCount_trValidator : killCount trValidator = 0 := rfl

theorem killCount_trGenerator (a : Args) : killCount (trGenerator a) = 0 := rfl

theorem killCount_trValidateDown (a : Args) : killCount (trValidateDown a) = 0 := rfl

theorem killCount_trWatch (a : Args) : killCount (trWatch a) = 0 := rfl

theorem killCount_trSpawn (a : Args) : killCount (trSpawn a) = 0 := rfl

theorem watchStartCount_trValidateDown (a : Args) : watchStartCount (trValidateDown a) = 0 := rfl

theorem watchStartCount_trWatch (a : Args) : watchStartCount (trWatch a) = 1 := rfl

theorem watchStartCount_trSpawn (a : Args) : watchStartCount (trSpawn a) = 1 := rfl

theorem watcherCtorEvents_trWatch (a : Args) :
    watcherCtorEvents (trWatch a) = [(a.packager_port, a.no_packager)] := rfl

theorem watcherCtorEvents_trSpawn (a : Args) :
    watcherCtorEvents (trSpawn a) = [(a.packager_port, a.no_packager)] := rfl

theorem spawnEvents_trValidateDown (a : Args) : spawnEvents (trValidateDown a) = [] := rfl

theorem spawnEvents_trWatch (a : Args) : spawnEvents (trWatch a) = [] := rfl

theorem spawnEvents_trSpawn (a : Args) :
    spawnEvents (trSpawn a) = [(a.reset_cache, a.packager_port)] := rfl

theorem launchEvents_trValidateDown (a : Args) : launchEvents (trValidateDown a) = [] := rfl

theorem launchEvents_trWatch (a : Args) : launchEvents (trWatch a) = [] := rfl

theorem launchEvents_trSpawn (a : Args) : launchEvents (trSpawn a) = [] := rfl

theorem milestonesOf_trValidator : milestonesOf trValidator = [0] := rfl

theorem milestonesOf_trGenerator (a : Args) : milestonesOf (trGenerator a) = [0, 1] := rfl

theorem milestonesOf_trValidateDown (a : Args) :
    milestonesOf (trValidateDown a) = [0, 1, 2] := rfl

theorem milestonesOf_trWatch (a : Args) : milestonesOf (trWatch a) = [0, 1, 2, 3] := rfl

theorem milestonesOf_trSpawn (a : Args) : milestonesOf (trSpawn a) = [0, 1, 2, 3, 4] := rfl

theorem exitEvents_platformBranch (l : String) (b : Bool) (r : Option JsError) (t : Nat) :
    exitEvents (platformBranch l b r t).1 = [] := by
  cases b <;> cases r <;> simp [platformBranch, exitEvents]

theorem killCount_platformBranch (l : String) (b : Bool) (r : Option JsError) (t : Nat) :
    killCount (platformBranch l b r t).1 = 0 := by
  cases b <;> cases r <;> simp [platformBranch, killCount, isKillEvent]

theorem watchStartCount_platformBranch (l : String) (b : Bool) (r : Option JsError) (t : Nat) :
    watchStartCount (platformBranch l b r t).1 = 0 := by
  cases b <;> cases r <;> simp [platformBranch, watchStartCount, isWatchStartEvent]

theorem watcherCtorEvents_platformBranch (l : String) (b : Bool) (r : Option JsError) (t : Nat) :
    watcherCtorEvents (platformBranch l b r t).1 = [] := by
  cases b <;> cases r <;> simp [platformBranch, watcherCtorEvents]

theorem spawnEvents_platformBranch (l : String) (b : Bool) (r : Option JsError) (t : Nat) :
    spawnEvents (platformBranch l b r t).1 = [] := by
  cases b <;> cases r <;> simp [platformBranch, spawnEvents]

theorem launchEvents_platformBranch (l : String) (b : Bool) (r : Option JsError) (t : Nat) :
    launchEvents (platformBranch l b r t).1 = [] := by
  cases b <;> cases r <;> simp [platformBranch, launchEvents, isLaunchEvent]

theorem milestonesOf_platformBranch (l : String) (b : Bool) (r : Option JsError) (t : Nat) :
    milestonesOf (platformBranch l b r t).1 = [] := by
  cases b <;> cases r <;> simp [platformBranch, milestonesOf, milestone]

theorem exitEvents_nil : exitEvents [] = [] := rfl

theorem exitEvents_cons (ev : Event) (l : List Event) :
    exitEvents (ev :: l) =
      (match ev with | Event.processExit c => [c] | _ => []) ++ exitEvents l := by
  cases ev <;> simp [exitEvents]

theorem killCount_nil : killCount [] = 0 := rfl

theorem killCount_cons (ev : Event) (l : List Event) :
    killCount (ev :: l) = (if isKillEvent ev then 1 else 0) + killCount l := by
  cases h : isKillEvent ev <;> simp [killCount, List.filter_cons, h, Nat.add_comm]

theorem watchStartCount_nil : watchStartCount [] = 0 := rfl

theorem watchStartCount_cons (ev : Event) (l : List Event) :
    watchStartCount (ev :: l) =
      (if isWatchStartEvent ev then 1 else 0) + watchStartCount l := by
  cases h : isWatchStartEvent ev <;>
    simp [watchStartCount, List.filter_cons, h, Nat.add_comm]

theorem watcherCtorEvents_nil : watcherCtorEvents [] = [] := rfl

theorem watcherCtorEvents_cons (ev : Event) (l : List Event) :
    watcherCtorEvents (ev :: l) =
      (match ev with | Event.newPackagerWatcher p np => [(p, np)] | _ => []) ++
        watcherCtorEvents l := by
  cases ev <;> simp [watcherCtorEvents]

theorem spawnEvents_nil : spawnEvents [] = [] := rfl

theorem spawnEvents_cons (ev : Event) (l : List Event) :
    spawnEvents (ev :: l) =
      (match ev with | Event.spawnPackager rc p => [(rc, p)] | _ => []) ++
        spawnEvents l := by
  cases ev <;> simp [spawnEvents]

theorem launchEvents_nil : launchEvents [] = [] := rfl

theorem launchEvents_cons (ev : Event) (l : List Event) :
    launchEvents (ev :: l) =
      (if isLaunchEvent ev then [ev] else []) ++ launchEvents l := by
  cases h : isLaunchEvent ev <;> simp [launchEvents, List.filter_cons, h]

theorem milestonesOf_nil : milestonesOf [] = [] := rfl

theorem milestonesOf_cons (ev : Event) (l : List Event) :
    milestonesOf (ev :: l) =
      (match milestone ev with | some m => [m] | none => []) ++ milestonesOf l := by
  cases h : milestone ev <;> simp [milestonesOf, List.filterMap_cons, h]

theorem exitEvents_fanoutSuffix (a : Args) (env : Env) (pp : Option ProcessHandle) :
    exitEvents (fanoutSuffix a env pp) =
      (match joinOutcome a env with
       | SettledOutcome.fulfilled _ => []
       | SettledOutcome.rejected _ _ => [0]) := by
  cases hj : joinOutcome a env <;> cases hri : a.run_ios <;> cases hra : a.run_android <;>
    simp [fanoutSuffix, hj, hri, hra, exitEvents_append, exitEvents_cons, exitEvents_nil,
      exitEvents_platformBranch, exitEvents_catchBlock]

theorem killCount_fanoutSuffix (a : Args) (env : Env) (pp : Option ProcessHandle) :
    killCount (fanoutSuffix a env pp) =
      (match joinOutcome a env with
       | SettledOutcome.fulfilled _ => 0
       | SettledOutcome.rejected _ _ => if killable pp then 1 else 0) := by
  cases hj : joinOutcome a env <;> cases hri : a.run_ios <;> cases hra : a.run_android <;>
    simp [fanoutSuffix, hj, hri, hra, killCount_append, killCount_cons, killCount_nil,
      killCount_platformBranch, killCount_catchBlock, isKillEvent]

theorem watchStartCount_fanoutSuffix (a : Args) (env : Env) (pp : Option ProcessHandle) :
    watchStartCount (fanoutSuffix a env pp) = 0 := by
  cases hj : joinOutcome a env <;> cases hri : a.run_ios <;> cases hra : a.run_android <;>
    simp [fanoutSuffix, hj, hri, hra, watchStartCount_append, watchStartCount_cons,
      watchStartCount_nil, watchStartCount_platformBranch, watchStartCount_catchBlock,
      isWatchStartEvent]

theorem watcherCtorEvents_fanoutSuffix (a : Args) (env : Env) (pp : Option ProcessHandle) :
    watcherCtorEvents (fanoutSuffix a env pp) = [] := by
  cases hj : joinOutcome a env <;> cases hri : a.run_ios <;> cases hra : a.run_android <;>
    simp [fanoutSuffix, hj, hri, hra, watcherCtorEvents_append, watcherCtorEvents_cons,
      watcherCtorEvents_nil, watcherCtorEvents_platformBranch, watcherCtorEvents_catchBlock]

theorem spawnEvents_fanoutSuffix (a : Args) (env : Env) (pp : Option ProcessHandle) :
    spawnEvents (fanoutSuffix a env pp) = [] := by
  cases hj : joinOutcome a env <;> cases hri : a.run_ios <;> cases hra : a.run_android <;>
    simp [fanoutSuffix, hj, hri, hra, spawnEvents_append, spawnEvents_cons, spawnEvents_nil,
      spawnEvents_platformBranch, spawnEvents_catchBlock]

theorem milestonesOf_fanoutSuffix (a : Args) (env : Env) (pp : Option ProcessHandle) :
    milestonesOf (fanoutSuffix a env pp) =
      (if a.run_ios then [5] else []) ++ (if a.run_android then [5] else []) := by
  cases hj : joinOutcome a env <;> cases hri : a.run_ios <;> cases hra : a.run_android <;>
    simp [fanoutSuffix, hj, hri, hra, milestonesOf_append, milestonesOf_cons, milestonesOf_nil,
      milestonesOf_platformBranch, milestonesOf_catchBlock, milestone]

/-! ### Master case analysis of `run` -/

theorem failWith_fanout (tr : List Event) (pp : Option ProcessHandle) (ke : Option JsError)
    (e : JsError) : (failWith tr pp ke e).fanout = none := rfl

theorem failWith_outcome (tr : List Event) (pp : Option ProcessHandle) (ke : Option JsError)
    (e : JsError) : (failWith tr pp ke e).outcome = Outcome.exited 0 := rfl

theorem failWith_caught (tr : List Event) (pp : Option ProcessHandle) (ke : Option JsError)
    (e : JsError) : (failWith tr pp ke e).caught = some e := rfl

theorem failWith_trace (tr : List Event) (pp : Option ProcessHandle) (ke : Option JsError)
    (e : JsError) : (failWith tr pp ke e).trace = tr ++ catchBlock pp ke e := rfl

theorem run_cases_env (a : Args) (env : Env) :
    (∃ e, env.validatorError = some e ∧
      run a env = failWith trValidator none env.killError e) ∨
    (∃ e, env.validatorError = none ∧ env.generatorError = some e ∧
      run a env = failWith (trGenerator a) none env.killError e) ∨
    (∃ e, env.validatorError = none ∧ env.generatorError = none ∧
      env.validateDownResult = Except.error e ∧
      run a env = failWith (trValidateDown a) none env.killError e) ∨
    (env.validatorError = none ∧ env.generatorError = none ∧
      env.validateDownResult = Except.ok false ∧ run a env = portInUseResult a) ∨
    (env.validatorError = none ∧ env.generatorError = none ∧
      env.validateDownResult = Except.ok true ∧ a.no_packager = true ∧
      run a env = runFanout a env (trWatch a) none) ∨
    (∃ e, env.validatorError = none ∧ env.generatorError = none ∧
      env.validateDownResult = Except.ok true ∧ a.no_packager = false ∧
      env.spawnResult = Except.error e ∧
      run a env = failWith (trSpawn a) none env.killError e) ∨
    (∃ h, env.validatorError = none ∧ env.generatorError = none ∧
      env.validateDownResult = Except.ok true ∧ a.no_packager = false ∧
      env.spawnResult = Except.ok h ∧
      run a env = runFanout a env (trSpawn a) (some h)) := by
  rcases hv : env.validatorError with _ | e
  · rcases hg : env.generatorError with _ | e
    · rcases hd : env.validateDownResult with e | down
      · exact Or.inr (Or.inr (Or.inl ⟨e, rfl, rfl, rfl, run_validateDown_error a env e hv hg hd⟩))
      · cases down
        · exact Or.inr (Or.inr (Or.inr (Or.inl
            ⟨rfl, rfl, rfl, run_validateDown_false a env hv hg hd⟩)))
        · cases hnp : a.no_packager
          · rcases hs : env.spawnResult with e | h
            · exact Or.inr (Or.inr (Or.inr (Or.inr (Or.inr (Or.inl
                ⟨e, rfl, rfl, rfl, rfl, rfl, run_spawn_error a env e hv hg hd hnp hs⟩)))))
            · exact Or.inr (Or.inr (Or.inr (Or.inr (Or.inr (Or.inr
                ⟨h, rfl, rfl, rfl, rfl, rfl, run_spawn_ok a env h hv hg hd hnp hs⟩)))))
          · exact Or.inr (Or.inr (Or.inr (Or.inr (Or.inl
              ⟨rfl, rfl, rfl, rfl, run_gate_noPackager a env hv hg hd hnp⟩))))
    · exact Or.inr (Or.inl ⟨e, rfl, rfl, run_generator_error a env e hv hg⟩)
  · exact Or.inl ⟨e, rfl, run_validator_error a env e hv⟩

/-! ### Branch and join lemmas -/

theorem iosOutcome_err (a : Args) (env : Env) (e : JsError)
    (hri : a.run_ios = true) (hio : env.iosResult = some e) :
    iosOutcome a env = SettledOutcome.rejected e env.iosTime := by
  simp [iosOutcome, platformBranch, hri, hio]

theorem androidOutcome_err (a : Args) (env : Env) (e : JsError)
    (hra : a.run_android = true) (han : env.androidResult = some e) :
    androidOutcome a env = SettledOutcome.rejected e env.androidTime := by
  simp [androidOutcome, platformBranch, hra, han]

theorem promiseAll2_rejected_left (e : JsError) (t : Nat) (o : SettledOutcome) :
    ∃ er tr, promiseAll2 (SettledOutcome.rejected e t) o = SettledOutcome.rejected er tr ∧
      tr ≤ t := by
  cases o with
  | fulfilled t2 => exact ⟨e, t, rfl, Nat.le_refl t⟩
  | rejected e2 t2 =>
    by_cases h : t2 < t
    · exact ⟨e2, t2, by simp [promiseAll2, h], Nat.le_of_lt h⟩
    · exact ⟨e, t, by simp [promiseAll2, h], Nat.le_refl t⟩

theorem promiseAll2_rejected_right (o : SettledOutcome) (e : JsError) (t : Nat) :
    ∃ er tr, promiseAll2 o (SettledOutcome.rejected e t) = SettledOutcome.rejected er tr ∧
      tr ≤ t := by
  cases o with
  | fulfilled t1 => exact ⟨e, t, rfl, Nat.le_refl t⟩
  | rejected e1 t1 =>
    by_cases h : t < t1
    · exact ⟨e, t, by simp [promiseAll2, h], Nat.le_refl t⟩
    · exact ⟨e1, t1, by simp [promiseAll2, h], Nat.le_of_not_lt h⟩

theorem spawnEvents_trValidator : spawnEvents trValidator = [] := rfl

theorem spawnEvents_trGenerator (a : Args) : spawnEvents (trGenerator a) = [] := rfl

/-! ### Concrete inputs for witnesses and counterexamples -/

/-- Default parsed arguments (all boolean flags off, default port). -/
def argsDefault : Args :=
  { run_ios := false, run_android := false, disable_uninstall := false,
    native_build_type := "dev", custom_config_json := none, ios_devices := none,
    ios_udids := none, no_packager := false, reset_cache := false,
    packager_port := "8081", force_localhost := false }

/-- Arguments with both platform runners enabled. -/
def argsBoth : Args := { argsDefault with run_ios := true, run_android := true }

/-- Arguments with the no-packager flag set. -/
def argsNoPackager : Args := { argsDefault with no_packager := true }

/-- An environment in which every collaborator succeeds. -/
def envAllOk : Env :=
  { validatorError := none, generatorError := none,
    validateDownResult := Except.ok true,
    spawnResult := Except.ok { truthy := true, hasKill := true },
    iosResult := none, iosTime := 1, androidResult := none, androidTime := 1,
    killError := none }

/-- A concrete iOS runner error. -/
def errIos : JsError := { msg := "ios device not found" }

/-- A concrete validator error. -/
def errValidator : JsError := { msg := "invalid rn cli config" }

/-- A concrete generator error. -/
def errGenerator : JsError := { msg := "config generation failed" }

/-- A concrete kill error. -/
def errKill : JsError := { msg := "kill failed" }

/-- iOS runner fails at time 1 while the Android runner would succeed at
time 5. -/
def envIosFailsFirst : Env :=
  { envAllOk with iosResult := some errIos, iosTime := 1, androidTime := 5 }

/-- The configuration validator throws. -/
def envValidatorFails : Env := { envAllOk with validatorError := some errValidator }

/-- The configuration generator throws. -/
def envGeneratorFails : Env := { envAllOk with generatorError := some errGenerator }

/-- The packager port is already occupied. -/
def envPortBusy : Env := { envAllOk with validateDownResult := Except.ok false }

/-- The iOS runner fails and the later kill of the packager also fails. -/
def envIosFailsKillFails : Env := { envIosFailsFirst with killError := some errKill }

/-! ### C2 -/

/-- C2 counterexample: when the validator fails, the process exit code is
0, not non-zero — the claim that a validator/generator failure "exits the
process with a non-zero exit code" is false on this input. -/
theorem c2_exit_code_zero_cex :
    (run argsDefault envValidatorFails).outcome = Outcome.exited 0 ∧
    ∀ c : Nat, (run argsDefault envValidatorFails).outcome = Outcome.exited c → c = 0 := by
  constructor
  · decide
  · intro c hres
    have h0 : (run argsDefault envValidatorFails).outcome = Outcome.exited 0 := by decide
    rw [h0] at hres
    exact (Outcome.exited.inj hres).symm

/-- C2 (amended): when ConfigValidator or ConfigGenerator fails, the whole
run aborts by exiting the process — with exit code 0, the handled-error
path — and no cleanup action is performed: the kill is never requested, no
packager spawn has happened, and the process handle is still undefined. -/
theorem c2_gate_failure_exits_zero_no_cleanup (a : Args) (env : Env) (e : JsError)
    (hfail : env.validatorError = some e ∨
      (env.validatorError = none ∧ env.generatorError = some e)) :
    (run a env).outcome = Outcome.exited 0 ∧
    exitEvents (run a env).trace = [0] ∧
    killCount (run a env).trace = 0 ∧
    spawnEvents (run a env).trace = [] ∧
    (run a env).packagerProcessFinal = none := by
  rcases hfail with hv | ⟨hv, hg⟩
  · rw [run_validator_error a env e hv]
    refine ⟨rfl, ?_, ?_, ?_, rfl⟩
    · rw [failWith_trace, exitEvents_append, exitEvents_trValidator, exitEvents_catchBlock]
      rfl
    · rw [failWith_trace, killCount_append, killCount_trValidator, killCount_catchBlock]
      simp [killable]
    · rw [failWith_trace, spawnEvents_append, spawnEvents_trValidator, spawnEvents_catchBlock]
      rfl
  · rw [run_generator_error a env e hv hg]
    refine ⟨rfl, ?_, ?_, ?_, rfl⟩
    · rw [failWith_trace, exitEvents_append, exitEvents_trGenerator, exitEvents_catchBlock]
      rfl
    · rw [failWith_trace, killCount_append, killCount_trGenerator, killCount_catchBlock]
      simp [killable]
    · rw [failWith_trace, spawnEvents_append, spawnEvents_trGenerator, spawnEvents_catchBlock]
      rfl

/-- C2 witness: the amended claim evaluated on a concrete validator
failure. -/
theorem c2_gate_failure_exits_zero_no_cleanup_witness :
    (run argsDefault envValidatorFails).outcome = Outcome.exited 0 ∧
    exitEvents (run argsDefault envValidatorFails).trace = [0] ∧
    killCount (run argsDefault envValidatorFails).trace = 0 ∧
    spawnEvents (run argsDefault envValidatorFails).trace = [] ∧
    (run argsDefault envValidatorFails).packagerProcessFinal = none :=
  c2_gate_failure_exits_zero_no_cleanup argsDefault envValidatorFails
    errValidator (Or.inl rfl)

/-! ### C3 -/

/-- The exit-code policy of `run`: `process.exit(1)` happens exactly in
the endpoint-in-use case; every error reaching the top-level catch ends in
`process.exit(0)`; a successful run calls `process.exit` not at all (the
process later exits 0 by default); and no other exit code ever occurs. -/
def exitCodePolicy (a : Args) (env : Env) : Prop :=
  (exitEvents (run a env).trace = [1] ↔
    (env.validatorError = none ∧ env.generatorError = none ∧
      env.validateDownResult = Except.ok false)) ∧
  (∀ e, (run a env).caught = some e →
    (run a env).outcome = Outcome.exited 0 ∧ exitEvents (run a env).trace = [0]) ∧
  ((run a env).outcome = Outcome.normal → exitEvents (run a env).trace = []) ∧
  (∀ c, (run a env).outcome = Outcome.exited c → c = 0 ∨ c = 1)

theorem c3_auxA (a : Args) (env : Env) (tr : List Event) (ke : Option JsError) (e : JsError)
    (h0 : exitEvents tr = []) (he : run a env = failWith tr none ke e)
    (hgate : ¬(env.validatorError = none ∧ env.generatorError = none ∧
      env.validateDownResult = Except.ok false)) :
    exitCodePolicy a env := by
  have ht : exitEvents (run a env).trace = [0] := by
    rw [he, failWith_trace, exitEvents_append, h0, exitEvents_catchBlock]
    rfl
  have ho : (run a env).outcome = Outcome.exited 0 := by rw [he]; rfl
  refine ⟨⟨?_, ?_⟩, ?_, ?_, ?_⟩
  · intro h1; rw [ht] at h1; simp at h1
  · intro hrhs; exact absurd hrhs hgate
  · intro e0 _; exact ⟨ho, ht⟩
  · intro hn; rw [ho] at hn; exact Outcome.noConfusion hn
  · intro c hc; rw [ho] at hc; exact Or.inl (Outcome.exited.inj hc).symm

theorem c3_auxB (a : Args) (env : Env) (tr : List Event) (pp : Option ProcessHandle)
    (h0 : exitEvents tr = []) (he : run a env = runFanout a env tr pp)
    (hgate : ¬(env.validatorError = none ∧ env.generatorError = none ∧
      env.validateDownResult = Except.ok false)) :
    exitCodePolicy a env := by
  cases hj : joinOutcome a env with
  | fulfilled t =>
    have ho : (run a env).outcome = Outcome.normal := by
      rw [he]; exact (runFanout_fulfilled a env tr pp t hj).1
    have hcau : (run a env).caught = none := by
      rw [he]; exact (runFanout_fulfilled a env tr pp t hj).2
    have ht : exitEvents (run a env).trace = [] := by
      rw [he, runFanout_trace, exitEvents_append, h0, exitEvents_fanoutSuffix, hj]
      rfl
    refine ⟨⟨?_, ?_⟩, ?_, ?_, ?_⟩
    · intro h1; rw [ht] at h1; simp at h1
    · intro hrhs; exact absurd hrhs hgate
    · intro e0 hsome; rw [hcau] at hsome; exact Option.noConfusion hsome
    · intro _; exact ht
    · intro c hc; rw [ho] at hc; exact Outcome.noConfusion hc
  | rejected er tr2 =>
    have ho : (run a env).outcome = Outcome.exited 0 := by
      rw [he]; exact (runFanout_rejected a env tr pp er tr2 hj).1
    have ht : exitEvents (run a env).trace = [0] := by
      rw [he, runFanout_trace, exitEvents_append, h0, exitEvents_fanoutSuffix, hj]
      rfl
    refine ⟨⟨?_, ?_⟩, ?_, ?_, ?_⟩
    · intro h1; rw [ht] at h1; simp at h1
    · intro hrhs; exact absurd hrhs hgate
    · intro e0 _; exact ⟨ho, ht⟩
    · intro hn; rw [ho] at hn; exact Outcome.noConfusion hn
    · intro c hc; rw [ho] at hc; exact Or.inl (Outcome.exited.inj hc).symm

/-- C3: the process exit code is 0 on any handled fatal error reaching
the top-level catch (and a successful run performs no exit call at all,
leaving the default exit code 0), while exit code 1 is produced exactly
for the endpoint-already-in-use case where `validateDown` returns
false. -/
theorem c3_exit_codes (a : Args) (env : Env) : exitCodePolicy a env := by
  rcases run_cases_env a env with ⟨e, hv, he⟩ | ⟨e, hv, hg, he⟩ | ⟨e, hv, hg, hd, he⟩ |
    ⟨hv, hg, hd, he⟩ | ⟨hv, hg, hd, hnp, he⟩ | ⟨e, hv, hg, hd, hnp, hs, he⟩ |
    ⟨h, hv, hg, hd, hnp, hs, he⟩
  · exact c3_auxA a env trValidator env.killError e rfl he (by simp [hv])
  · exact c3_auxA a env (trGenerator a) env.killError e rfl he (by simp [hg])
  · exact c3_auxA a env (trValidateDown a) env.killError e rfl he (by simp [hd])
  · have ht : exitEvents (run a env).trace = [1] := by
      rw [he]
      simp [portInUseResult, exitEvents_append, exitEvents_trValidateDown,
        exitEvents_cons, exitEvents_nil]
    have ho : (run a env).outcome = Outcome.exited 1 := by rw [he]; rfl
    have hcau : (run a env).caught = none := by rw [he]; rfl
    refine ⟨⟨fun _ => ⟨hv, hg, hd⟩, fun _ => ht⟩, ?_, ?_, ?_⟩
    · intro e0 hsome; rw [hcau] at hsome; exact Option.noConfusion hsome
    · intro hn; rw [ho] at hn; exact Outcome.noConfusion hn
    · intro c hc; rw [ho] at hc; exact Or.inr (Outcome.exited.inj hc).symm
  · exact c3_auxB a env (trWatch a) none rfl he (by simp [hd])
  · exact c3_auxA a env (trSpawn a) env.killError e rfl he (by simp [hd])
  · exact c3_auxB a env (trSpawn a) (some h) rfl he (by simp [hd])

/-- C3 witness: the exit-code policy evaluated on a concrete fully
successful run. -/
theorem c3_exit_codes_witness : exitCodePolicy argsDefault envAllOk :=
  c3_exit_codes argsDefault envAllOk

/-! ### C4 -/

/-- C4: when `validateDown` returns false, the run logs the port-in-use
error and exits with code 1 immediately: no packager spawn call is made,
no platform runner is launched, no kill is performed, and the fan-out is
never reached. -/
theorem c4_port_busy_stops_everything (a : Args) (env : Env)
    (hv : env.validatorError = none) (hg : env.generatorError = none)
    (hd : env.validateDownResult = Except.ok false) :
    (run a env).outcome = Outcome.exited 1 ∧
    Event.logError (portInUseMsg a.packager_port) ∈ (run a env).trace ∧
    spawnEvents (run a env).trace = [] ∧
    launchEvents (run a env).trace = [] ∧
    killCount (run a env).trace = 0 ∧
    (run a env).fanout = none := by
  rw [run_validateDown_false a env hv hg hd]
  refine ⟨rfl, ?_, rfl, rfl, rfl, rfl⟩
  simp [portInUseResult, trValidateDown, trGenerator, trValidator]

/-- C4 witness: the port-busy behaviour evaluated on a concrete occupied
endpoint. -/
theorem c4_port_busy_stops_everything_witness :
    (run argsDefault envPortBusy).outcome = Outcome.exited 1 ∧
    Event.logError (portInUseMsg argsDefault.packager_port) ∈ (run argsDefault envPortBusy).trace ∧
    spawnEvents (run argsDefault envPortBusy).trace = [] ∧
    launchEvents (run argsDefault envPortBusy).trace = [] ∧
    killCount (run argsDefault envPortBusy).trace = 0 ∧
    (run argsDefault envPortBusy).fanout = none :=
  c4_port_busy_stops_everything argsDefault envPortBusy rfl rfl rfl

/-! ### C5 -/

/-- C5: once the `validateDown` gate passes, the packager spawn call —
with the cache-reset flag and the packager port from the arguments — is
made if and only if the no-packager option is unset; with the option set
the `packagerProcess` variable stays undefined, and with it unset a
successfully spawned handle is retained in that variable. -/
theorem c5_spawn_iff_packager_enabled (a : Args) (env : Env)
    (hv : env.validatorError = none) (hg : env.generatorError = none)
    (hd : env.validateDownResult = Except.ok true) :
    (a.no_packager = true →
      spawnEvents (run a env).trace = [] ∧
      (run a env).packagerProcessFinal = none) ∧
    (a.no_packager = false →
      spawnEvents (run a env).trace = [(a.reset_cache, a.packager_port)] ∧
      ∀ h, env.spawnResult = Except.ok h →
        (run a env).packagerProcessFinal = some h) := by
  constructor
  · intro hnp
    rw [run_gate_noPackager a env hv hg hd hnp]
    constructor
    · rw [runFanout_trace, spawnEvents_append, spawnEvents_trWatch, spawnEvents_fanoutSuffix]
      rfl
    · rw [runFanout_packagerProcessFinal]
  · intro hnp
    rcases hs : env.spawnResult with e | h
    · rw [run_spawn_error a env e hv hg hd hnp hs]
      constructor
      · rw [failWith_trace, spawnEvents_append, spawnEvents_trSpawn, spawnEvents_catchBlock]
        rfl
      · intro h2 hs2
        exact Except.noConfusion hs2
    · rw [run_spawn_ok a env h hv hg hd hnp hs]
      constructor
      · rw [runFanout_trace, spawnEvents_append, spawnEvents_trSpawn, spawnEvents_fanoutSuffix]
        rfl
      · intro h2 hs2
        rw [runFanout_packagerProcessFinal, Except.ok.inj hs2]

/-- C5 witness: with the no-packager flag unset and a successful spawn,
the spawn call is made with the default flags and the handle retained. -/
theorem c5_spawn_iff_packager_enabled_witness :
    spawnEvents (run argsDefault envAllOk).trace =
      [(argsDefault.reset_cache, argsDefault.packager_port)] ∧
    (run argsDefault envAllOk).packagerProcessFinal =
      some { truthy := true, hasKill := true } := by
  have h := (c5_spawn_iff_packager_enabled argsDefault envAllOk rfl rfl rfl).2 rfl
  exact ⟨h.1, h.2 { truthy := true, hasKill := true } rfl⟩

/-! ### C6 -/

/-- C6: on every failure path reaching the top-level catch, the kill is
requested exactly once when the retained handle is truthy and exposes a
kill function, and not at all otherwise (in particular never on an absent
handle); whether or not the kill itself fails, the run still ends with
the same `process.exit(0)` — cleanup never raises an unhandled error and
never changes the exit outcome. -/
theorem c6_cleanup_guarded_and_harmless (a : Args) (env : Env) (e : JsError)
    (hc : (run a env).caught = some e) :
    killCount (run a env).trace =
      (if killable (run a env).packagerProcessFinal then 1 else 0) ∧
    (run a env).outcome = Outcome.exited 0 := by
  rcases run_cases_env a env with ⟨e1, hv, he⟩ | ⟨e1, hv, hg, he⟩ | ⟨e1, hv, hg, hd, he⟩ |
    ⟨hv, hg, hd, he⟩ | ⟨hv, hg, hd, hnp, he⟩ | ⟨e1, hv, hg, hd, hnp, hs, he⟩ |
    ⟨h, hv, hg, hd, hnp, hs, he⟩
  · rw [he]
    refine ⟨?_, rfl⟩
    rw [failWith_trace, killCount_append, killCount_trValidator, killCount_catchBlock]
    simp [failWith]
  · rw [he]
    refine ⟨?_, rfl⟩
    rw [failWith_trace, killCount_append, killCount_trGenerator, killCount_catchBlock]
    simp [failWith]
  · rw [he]
    refine ⟨?_, rfl⟩
    rw [failWith_trace, killCount_append, killCount_trValidateDown, killCount_catchBlock]
    simp [failWith]
  · rw [he] at hc
    exact Option.noConfusion hc
  · rw [he] at hc ⊢
    cases hj : joinOutcome a env with
    | fulfilled t =>
      rw [(runFanout_fulfilled a env (trWatch a) none t hj).2] at hc
      exact Option.noConfusion hc
    | rejected er tr2 =>
      refine ⟨?_, (runFanout_rejected a env (trWatch a) none er tr2 hj).1⟩
      rw [runFanout_trace, killCount_append, killCount_trWatch, killCount_fanoutSuffix, hj,
        runFanout_packagerProcessFinal]
      simp
  · rw [he]
    refine ⟨?_, rfl⟩
    rw [failWith_trace, killCount_append, killCount_trSpawn, killCount_catchBlock]
    simp [failWith]
  · rw [he] at hc ⊢
    cases hj : joinOutcome a env with
    | fulfilled t =>
      rw [(runFanout_fulfilled a env (trSpawn a) (some h) t hj).2] at hc
      exact Option.noConfusion hc
    | rejected er tr2 =>
      refine ⟨?_, (runFanout_rejected a env (trSpawn a) (some h) er tr2 hj).1⟩
      rw [runFanout_trace, killCount_append, killCount_trSpawn, killCount_fanoutSuffix, hj,
        runFanout_packagerProcessFinal]
      simp

/-- C6 witness: a failing iOS run whose kill also fails still performs
exactly one kill on the killable handle and exits 0. -/
theorem c6_cleanup_guarded_and_harmless_witness :
    killCount (run argsBoth envIosFailsKillFails).trace =
      (if killable (run argsBoth envIosFailsKillFails).packagerProcessFinal then 1 else 0) ∧
    (run argsBoth envIosFailsKillFails).outcome = Outcome.exited 0 :=
  c6_cleanup_guarded_and_harmless argsBoth envIosFailsKillFails errIos (by decide)

/-! ### C9 -/

/-- C9: once the `validateDown` gate passes, `startWatchingUntilUp` is
invoked exactly once — in particular also when the no-packager option is
set — and the watcher has been constructed exactly once, with the
packager port and the no-packager flag from the arguments. -/
theorem c9_watcher_always_started (a : Args) (env : Env)
    (hv : env.validatorError = none) (hg : env.generatorError = none)
    (hd : env.validateDownResult = Except.ok true) :
    watchStartCount (run a env).trace = 1 ∧
    watcherCtorEvents (run a env).trace = [(a.packager_port, a.no_packager)] := by
  cases hnp : a.no_packager
  · rcases hs : env.spawnResult with e | h
    · rw [run_spawn_error a env e hv hg hd hnp hs]
      constructor
      · rw [failWith_trace, watchStartCount_append, watchStartCount_trSpawn,
          watchStartCount_catchBlock]
      · rw [failWith_trace, watcherCtorEvents_append, watcherCtorEvents_trSpawn,
          watcherCtorEvents_catchBlock]
        simp [hnp]
    · rw [run_spawn_ok a env h hv hg hd hnp hs]
      constructor
      · rw [runFanout_trace, watchStartCount_append, watchStartCount_trSpawn,
          watchStartCount_fanoutSuffix]
      · rw [runFanout_trace, watcherCtorEvents_append, watcherCtorEvents_trSpawn,
          watcherCtorEvents_fanoutSuffix]
        simp [hnp]
  · rw [run_gate_noPackager a env hv hg hd hnp]
    constructor
    · rw [runFanout_trace, watchStartCount_append, watchStartCount_trWatch,
        watchStartCount_fanoutSuffix]
    · rw [runFanout_trace, watcherCtorEvents_append, watcherCtorEvents_trWatch,
        watcherCtorEvents_fanoutSuffix]
      simp [hnp]

/-- C9 witness: with the no-packager flag set, the watcher is still
constructed with `(port, no_packager) = ("8081", true)` and started
once. -/
theorem c9_watcher_always_started_witness :
    watchStartCount (run argsNoPackager envAllOk).trace = 1 ∧
    watcherCtorEvents (run argsNoPackager envAllOk).trace =
      [(argsNoPackager.packager_port, argsNoPackager.no_packager)] :=
  c9_watcher_always_started argsNoPackager envAllOk rfl rfl rfl

/-! ### C10 -/

/-- C10: the promise returned by `run` never rejects: for every argument
record and every environment the outcome is either a normal return or a
`process.exit`, never a propagated exception. -/
theorem c10_run_never_rejects (a : Args) (env : Env) :
    ((run a env).outcome = Outcome.normal ∨ ∃ c, (run a env).outcome = Outcome.exited c) ∧
    ∀ e, (run a env).outcome ≠ Outcome.threw e := by
  rcases run_cases_env a env with ⟨e1, hv, he⟩ | ⟨e1, hv, hg, he⟩ | ⟨e1, hv, hg, hd, he⟩ |
    ⟨hv, hg, hd, he⟩ | ⟨hv, hg, hd, hnp, he⟩ | ⟨e1, hv, hg, hd, hnp, hs, he⟩ |
    ⟨h, hv, hg, hd, hnp, hs, he⟩
  · rw [he]; exact ⟨Or.inr ⟨0, rfl⟩, fun e0 hth => Outcome.noConfusion hth⟩
  · rw [he]; exact ⟨Or.inr ⟨0, rfl⟩, fun e0 hth => Outcome.noConfusion hth⟩
  · rw [he]; exact ⟨Or.inr ⟨0, rfl⟩, fun e0 hth => Outcome.noConfusion hth⟩
  · rw [he]; exact ⟨Or.inr ⟨1, rfl⟩, fun e0 hth => Outcome.noConfusion hth⟩
  · rw [he]
    cases hj : joinOutcome a env with
    | fulfilled t =>
      have ho := (runFanout_fulfilled a env (trWatch a) none t hj).1
      exact ⟨Or.inl ho, fun e0 hth => by rw [ho] at hth; exact Outcome.noConfusion hth⟩
    | rejected er tr2 =>
      have ho := (runFanout_rejected a env (trWatch a) none er tr2 hj).1
      exact ⟨Or.inr ⟨0, ho⟩, fun e0 hth => by rw [ho] at hth; exact Outcome.noConfusion hth⟩
  · rw [he]; exact ⟨Or.inr ⟨0, rfl⟩, fun e0 hth => Outcome.noConfusion hth⟩
  · rw [he]
    cases hj : joinOutcome a env with
    | fulfilled t =>
      have ho := (runFanout_fulfilled a env (trSpawn a) (some h) t hj).1
      exact ⟨Or.inl ho, fun e0 hth => by rw [ho] at hth; exact Outcome.noConfusion hth⟩
    | rejected er tr2 =>
      have ho := (runFanout_rejected a env (trSpawn a) (some h) er tr2 hj).1
      exact ⟨Or.inr ⟨0, ho⟩, fun e0 hth => by rw [ho] at hth; exact Outcome.noConfusion hth⟩

/-- C10 witness: the no-rejection property evaluated on a concrete
environment in which the generator throws. -/
theorem c10_run_never_rejects_witness :
    ((run argsBoth envGeneratorFails).outcome = Outcome.normal ∨
      ∃ c, (run argsBoth envGeneratorFails).outcome = Outcome.exited c) ∧
    ∀ e, (run argsBoth envGeneratorFails).outcome ≠ Outcome.threw e :=
  c10_run_never_rejects argsBoth envGeneratorFails

/-! ### C7 -/

/-- C7: the sequential milestones of every run — validator (0), generator
(1), `validateDown` (2), `startWatchingUntilUp` (3), packager spawn (4),
platform-runner launches (5, unordered between the two branches) — occur
in this strict order (every reached milestone list is a sublist of the
full ordered sequence), and no later step starts once an earlier gate
fails: a validator failure stops after 0, a generator failure after 1, a
`validateDown` error or false result after 2, and a spawn failure after
4 (before any launch). -/
theorem c7_step_ordering (a : Args) (env : Env) :
    (milestones (run a env)).Sublist [0, 1, 2, 3, 4, 5, 5] ∧
    (∀ e, env.validatorError = some e → milestones (run a env) = [0]) ∧
    (∀ e, env.validatorError = none → env.generatorError = some e →
      milestones (run a env) = [0, 1]) ∧
    (env.validatorError = none → env.generatorError = none →
      ((∃ e, env.validateDownResult = Except.error e) ∨
        env.validateDownResult = Except.ok false) →
      milestones (run a env) = [0, 1, 2]) ∧
    (∀ e, env.validatorError = none → env.generatorError = none →
      env.validateDownResult = Except.ok true → a.no_packager = false →
      env.spawnResult = Except.error e → milestones (run a env) = [0, 1, 2, 3, 4]) := by
  rcases run_cases_env a env with ⟨e, hv, he⟩ | ⟨e, hv, hg, he⟩ | ⟨e, hv, hg, hd, he⟩ |
    ⟨hv, hg, hd, he⟩ | ⟨hv, hg, hd, hnp, he⟩ | ⟨e, hv, hg, hd, hnp, hs, he⟩ |
    ⟨h, hv, hg, hd, hnp, hs, he⟩
  · have hm : milestones (run a env) = [0] := by
      rw [he]
      rw [milestones, failWith_trace, milestonesOf_append, milestonesOf_trValidator,
        milestonesOf_catchBlock]
      rfl
    refine ⟨by rw [hm]; decide, ?_, ?_, ?_, ?_⟩ <;> simp_all
  · have hm : milestones (run a env) = [0, 1] := by
      rw [he]
      rw [milestones, failWith_trace, milestonesOf_append, milestonesOf_trGenerator,
        milestonesOf_catchBlock]
      rfl
    refine ⟨by rw [hm]; decide, ?_, ?_, ?_, ?_⟩ <;> simp_all
  · have hm : milestones (run a env) = [0, 1, 2] := by
      rw [he]
      rw [milestones, failWith_trace, milestonesOf_append, milestonesOf_trValidateDown,
        milestonesOf_catchBlock]
      rfl
    refine ⟨by rw [hm]; decide, ?_, ?_, ?_, ?_⟩ <;> simp_all
  · have hm : milestones (run a env) = [0, 1, 2] := by
      rw [he]
      simp [milestones, portInUseResult, milestonesOf_append, milestonesOf_trValidateDown,
        milestonesOf_cons, milestonesOf_nil, milestone]
    refine ⟨by rw [hm]; decide, ?_, ?_, ?_, ?_⟩ <;> simp_all
  · have hm : milestones (run a env) =
        [0, 1, 2, 3] ++ ((if a.run_ios then [5] else []) ++
          (if a.run_android then [5] else [])) := by
      rw [he]
      rw [milestones, runFanout_trace, milestonesOf_append, milestonesOf_trWatch,
        milestonesOf_fanoutSuffix]
    refine ⟨?_, ?_, ?_, ?_, ?_⟩
    · rw [hm]
      cases hri : a.run_ios <;> cases hra : a.run_android <;> simp [hri, hra]
    all_goals simp_all
  · have hm : milestones (run a env) = [0, 1, 2, 3, 4] := by
      rw [he]
      rw [milestones, failWith_trace, milestonesOf_append, milestonesOf_trSpawn,
        milestonesOf_catchBlock]
      rfl
    refine ⟨by rw [hm]; decide, ?_, ?_, ?_, ?_⟩ <;> simp_all
  · have hm : milestones (run a env) =
        [0, 1, 2, 3, 4] ++ ((if a.run_ios then [5] else []) ++
          (if a.run_android then [5] else [])) := by
      rw [he]
      rw [milestones, runFanout_trace, milestonesOf_append, milestonesOf_trSpawn,
        milestonesOf_fanoutSuffix]
    refine ⟨?_, ?_, ?_, ?_, ?_⟩
    · rw [hm]
      cases hri : a.run_ios <;> cases hra : a.run_android <;> simp [hri, hra]
    all_goals simp_all

/-- C7 witness: the ordering property evaluated on a concrete two-platform
successful run. -/
theorem c7_step_ordering_witness :
    (milestones (run argsBoth envAllOk)).Sublist [0, 1, 2, 3, 4, 5, 5] ∧
    (∀ e, envAllOk.validatorError = some e → milestones (run argsBoth envAllOk) = [0]) ∧
    (∀ e, envAllOk.validatorError = none → envAllOk.generatorError = some e →
      milestones (run argsBoth envAllOk) = [0, 1]) ∧
    (envAllOk.validatorError = none → envAllOk.generatorError = none →
      ((∃ e, envAllOk.validateDownResult = Except.error e) ∨
        envAllOk.validateDownResult = Except.ok false) →
      milestones (run argsBoth envAllOk) = [0, 1, 2]) ∧
    (∀ e, envAllOk.validatorError = none → envAllOk.generatorError = none →
      envAllOk.validateDownResult = Except.ok true → argsBoth.no_packager = false →
      envAllOk.spawnResult = Except.error e →
      milestones (run argsBoth envAllOk) = [0, 1, 2, 3, 4]) :=
  c7_step_ordering argsBoth envAllOk

/-! ### C8 -/

theorem c8_aux (a : Args) (env : Env) (tr : List Event) (pp : Option ProcessHandle)
    (he : run a env = runFanout a env tr pp) :
    (∀ e, a.run_ios = true → env.iosResult = some e →
      iosOutcome a env = SettledOutcome.rejected e env.iosTime ∧
      Event.logError ("Error running iOS tasks: " ++ e.msg) ∈ (run a env).trace ∧
      (∃ er tr2, joinOutcome a env = SettledOutcome.rejected er tr2) ∧
      (run a env).outcome = Outcome.exited 0 ∧ (run a env).caught.isSome = true) ∧
    (∀ e, a.run_android = true → env.androidResult = some e →
      androidOutcome a env = SettledOutcome.rejected e env.androidTime ∧
      Event.logError ("Error running Android tasks: " ++ e.msg) ∈ (run a env).trace ∧
      (∃ er tr2, joinOutcome a env = SettledOutcome.rejected er tr2) ∧
      (run a env).outcome = Outcome.exited 0 ∧ (run a env).caught.isSome = true) := by
  constructor
  · intro e hri hio
    have hbr := iosOutcome_err a env e hri hio
    have hjoin : ∃ er tr2, joinOutcome a env = SettledOutcome.rejected er tr2 := by
      unfold joinOutcome
      rw [hbr]
      obtain ⟨er, tr2, hEq, _⟩ := promiseAll2_rejected_left e env.iosTime (androidOutcome a env)
      exact ⟨er, tr2, hEq⟩
    obtain ⟨er, tr2, hj⟩ := hjoin
    refine ⟨hbr, ?_, ⟨er, tr2, hj⟩, ?_, ?_⟩
    · rw [he, runFanout_trace]
      refine List.mem_append.mpr (Or.inr ?_)
      simp [fanoutSuffix, platformBranch, hri, hio]
    · rw [he]
      exact (runFanout_rejected a env tr pp er tr2 hj).1
    · rw [he, (runFanout_rejected a env tr pp er tr2 hj).2]
      rfl
  · intro e hra han
    have hbr := androidOutcome_err a env e hra han
    have hjoin : ∃ er tr2, joinOutcome a env = SettledOutcome.rejected er tr2 := by
      unfold joinOutcome
      rw [hbr]
      obtain ⟨er, tr2, hEq, _⟩ :=
        promiseAll2_rejected_right (iosOutcome a env) e env.androidTime
      exact ⟨er, tr2, hEq⟩
    obtain ⟨er, tr2, hj⟩ := hjoin
    refine ⟨hbr, ?_, ⟨er, tr2, hj⟩, ?_, ?_⟩
    · rw [he, runFanout_trace]
      refine List.mem_append.mpr (Or.inr ?_)
      simp [fanoutSuffix, platformBranch, hra, han]
    · rw [he]
      exact (runFanout_rejected a env tr pp er tr2 hj).1
    · rw [he, (runFanout_rejected a env tr pp er tr2 hj).2]
      rfl

/-- C8: an error thrown by a launched platform runner is not swallowed by
its branch wrapper: the wrapper logs it and the branch promise rejects
with the same error, so the `Promise.all` join rejects and the whole run
takes the failure path (caught error, exit 0). -/
theorem c8_branch_errors_propagate (a : Args) (env : Env) (fi : FanoutInfo)
    (hf : (run a env).fanout = some fi) :
    (∀ e, a.run_ios = true → env.iosResult = some e →
      fi.ios = SettledOutcome.rejected e env.iosTime ∧
      Event.logError ("Error running iOS tasks: " ++ e.msg) ∈ (run a env).trace ∧
      (∃ er tr2, fi.join = SettledOutcome.rejected er tr2) ∧
      (run a env).outcome = Outcome.exited 0 ∧ (run a env).caught.isSome = true) ∧
    (∀ e, a.run_android = true → env.androidResult = some e →
      fi.android = SettledOutcome.rejected e env.androidTime ∧
      Event.logError ("Error running Android tasks: " ++ e.msg) ∈ (run a env).trace ∧
      (∃ er tr2, fi.join = SettledOutcome.rejected er tr2) ∧
      (run a env).outcome = Outcome.exited 0 ∧ (run a env).caught.isSome = true) := by
  rcases run_cases_env a env with ⟨e1, hv, he⟩ | ⟨e1, hv, hg, he⟩ | ⟨e1, hv, hg, hd, he⟩ |
    ⟨hv, hg, hd, he⟩ | ⟨hv, hg, hd, hnp, he⟩ | ⟨e1, hv, hg, hd, hnp, hs, he⟩ |
    ⟨h, hv, hg, hd, hnp, hs, he⟩
  · rw [he] at hf; exact absurd hf (by simp [failWith])
  · rw [he] at hf; exact absurd hf (by simp [failWith])
  · rw [he] at hf; exact absurd hf (by simp [failWith])
  · rw [he] at hf; exact absurd hf (by simp [portInUseResult])
  · rw [he, runFanout_fanout] at hf
    obtain rfl := Option.some.inj hf
    simpa using c8_aux a env (trWatch a) none he
  · rw [he] at hf; exact absurd hf (by simp [failWith])
  · rw [he, runFanout_fanout] at hf
    obtain rfl := Option.some.inj hf
    simpa using c8_aux a env (trSpawn a) (some h) he

/-- C8 witness: the concrete failing iOS runner error is logged, re-thrown
into its branch outcome, and fails the whole run. -/
theorem c8_branch_errors_propagate_witness :
    (run argsBoth envIosFailsFirst).outcome = Outcome.exited 0 ∧
    Event.logError ("Error running iOS tasks: " ++ errIos.msg) ∈
      (run argsBoth envIosFailsFirst).trace := by
  have h := (c8_branch_errors_propagate argsBoth envIosFailsFirst
    ⟨SettledOutcome.rejected errIos 1, SettledOutcome.fulfilled 5,
      SettledOutcome.rejected errIos 1⟩ (by decide)).1 errIos rfl rfl
  exact ⟨h.2.2.2.1, h.2.1⟩

/-! ### C1 -/

/-- The property asserted by C1: whenever the fan-out was reached and the
run failed, cleanup began only after every launched branch had settled,
i.e. the join settled no earlier than either branch. -/
def cleanupWaitsForAllBranches (r : RunResult) : Prop :=
  ∀ fi, r.fanout = some fi → r.caught.isSome = true →
    settleTime fi.ios ≤ settleTime fi.join ∧ settleTime fi.android ≤ settleTime fi.join

/-- C1 counterexample: with the iOS branch failing at time 1 and the
Android branch still running until time 5, `Promise.all` rejects at time
1 and the catch-block cleanup begins then — before the sibling branch has
settled — so the claimed join-waits-for-all property is false. -/
theorem c1_cleanup_before_sibling_settles :
    ¬ cleanupWaitsForAllBranches (run argsBoth envIosFailsFirst) := by
  intro hcl
  have h := hcl ⟨SettledOutcome.rejected errIos 1, SettledOutcome.fulfilled 5,
    SettledOutcome.rejected errIos 1⟩ (by decide) (by decide)
  exact absurd h.2 (by decide)

theorem c1_aux (a : Args) (env : Env) (tr : List Event) (pp : Option ProcessHandle)
    (hri : a.run_ios = true) (hra : a.run_android = true)
    (he : run a env = runFanout a env tr pp)
    (h0 : exitEvents tr = []) (h1 : killCount tr = 0) :
    (∀ e, env.iosResult = some e →
      ∃ er tr2, joinOutcome a env = SettledOutcome.rejected er tr2 ∧ tr2 ≤ env.iosTime) ∧
    (∀ e, env.androidResult = some e →
      ∃ er tr2, joinOutcome a env = SettledOutcome.rejected er tr2 ∧ tr2 ≤ env.androidTime) ∧
    ((∃ e, env.iosResult = some e) ∨ (∃ e, env.androidResult = some e) →
      (run a env).outcome = Outcome.exited 0 ∧ exitEvents (run a env).trace = [0] ∧
      killCount (run a env).trace ≤ 1) := by
  refine ⟨?_, ?_, ?_⟩
  · intro e hio
    unfold joinOutcome
    rw [iosOutcome_err a env e hri hio]
    exact promiseAll2_rejected_left e env.iosTime (androidOutcome a env)
  · intro e han
    unfold joinOutcome
    rw [androidOutcome_err a env e hra han]
    exact promiseAll2_rejected_right (iosOutcome a env) e env.androidTime
  · intro hex
    have hrej : ∃ er tr2, joinOutcome a env = SettledOutcome.rejected er tr2 := by
      rcases hex with ⟨e, hio⟩ | ⟨e, han⟩
      · unfold joinOutcome
        rw [iosOutcome_err a env e hri hio]
        obtain ⟨er, tr2, hEq, _⟩ :=
          promiseAll2_rejected_left e env.iosTime (androidOutcome a env)
        exact ⟨er, tr2, hEq⟩
      · unfold joinOutcome
        rw [androidOutcome_err a env e hra han]
        obtain ⟨er, tr2, hEq, _⟩ :=
          promiseAll2_rejected_right (iosOutcome a env) e env.androidTime
        exact ⟨er, tr2, hEq⟩
    obtain ⟨er, tr2, hj⟩ := hrej
    refine ⟨?_, ?_, ?_⟩
    · rw [he]
      exact (runFanout_rejected a env tr pp er tr2 hj).1
    · rw [he, runFanout_trace, exitEvents_append, h0, exitEvents_fanoutSuffix, hj]
      rfl
    · rw [he, runFanout_trace, killCount_append, h1, killCount_fanoutSuffix, hj]
      cases hpk : killable pp <;> simp [hpk]

/-- C1 (amended): when both platform branches are launched and one of
them fails, the `Promise.all` join rejects no later than the failing
branch settles — it is a fail-fast join, so cleanup can begin while the
sibling branch is still running (see the counterexample) — and the
cleanup-and-exit of the catch block is still performed exactly once
(exactly one `process.exit`, with code 0, and at most one kill) however
many branches failed. -/
theorem c1_join_rejects_at_first_failure (a : Args) (env : Env) (fi : FanoutInfo)
    (hri : a.run_ios = true) (hra : a.run_android = true)
    (hf : (run a env).fanout = some fi) :
    (∀ e, env.iosResult = some e →
      ∃ er tr2, fi.join = SettledOutcome.rejected er tr2 ∧ tr2 ≤ env.iosTime) ∧
    (∀ e, env.androidResult = some e →
      ∃ er tr2, fi.join = SettledOutcome.rejected er tr2 ∧ tr2 ≤ env.androidTime) ∧
    ((∃ e, env.iosResult = some e) ∨ (∃ e, env.androidResult = some e) →
      (run a env).outcome = Outcome.exited 0 ∧ exitEvents (run a env).trace = [0] ∧
      killCount (run a env).trace ≤ 1) := by
  rcases run_cases_env a env with ⟨e1, hv, he⟩ | ⟨e1, hv, hg, he⟩ | ⟨e1, hv, hg, hd, he⟩ |
    ⟨hv, hg, hd, he⟩ | ⟨hv, hg, hd, hnp, he⟩ | ⟨e1, hv, hg, hd, hnp, hs, he⟩ |
    ⟨h, hv, hg, hd, hnp, hs, he⟩
  · rw [he] at hf; exact absurd hf (by simp [failWith])
  · rw [he] at hf; exact absurd hf (by simp [failWith])
  · rw [he] at hf; exact absurd hf (by simp [failWith])
  · rw [he] at hf; exact absurd hf (by simp [portInUseResult])
  · rw [he, runFanout_fanout] at hf
    obtain rfl := Option.some.inj hf
    simpa using c1_aux a env (trWatch a) none hri hra he rfl rfl
  · rw [he] at hf; exact absurd hf (by simp [failWith])
  · rw [he, runFanout_fanout] at hf
    obtain rfl := Option.some.inj hf
    simpa using c1_aux a env (trSpawn a) (some h) hri hra he rfl rfl

/-- C1 witness: on the concrete input of the counterexample the amended
claim holds — the join rejects at time 1 (no later than the iOS failure)
and cleanup and exit happen exactly once. -/
theorem c1_join_rejects_at_first_failure_witness :
    (∃ er tr2,
      (SettledOutcome.rejected errIos 1 : SettledOutcome) = SettledOutcome.rejected er tr2 ∧
        tr2 ≤ envIosFailsFirst.iosTime) ∧
    (run argsBoth envIosFailsFirst).outcome = Outcome.exited 0 ∧
    exitEvents (run argsBoth envIosFailsFirst).trace = [0] ∧
    killCount (run argsBoth envIosFailsFirst).trace ≤ 1 := by
  have h := c1_join_rejects_at_first_failure argsBoth envIosFailsFirst
    ⟨SettledOutcome.rejected errIos 1, SettledOutcome.fulfilled 5,
      SettledOutcome.rejected errIos 1⟩ rfl rfl (by decide)
  exact ⟨h.1 errIos rfl, h.2.2 (Or.inl ⟨errIos, rfl⟩)⟩
